import Mathlib

/-!
Shallow embedding of `src/mx_master_4.py` (the device-communication core of
forfolias/mx4notifications): the device selector `MXMaster4.find`, the wired
HID++ framing `MXMaster4.hidpp`, the read/validate loop `MXMaster4.read`, and
the Bluetooth/WebHID haptic path `MXMaster4._webhid_haptic`.

Conventions of the embedding:
* Python byte strings become `List Nat` (each element intended `< 256`; where
  Python `bytes(args)` would raise on an out-of-range value the embedding
  returns an error, and where `struct.pack` would raise the embedding returns
  an error).
* The HID handle becomes an explicit session state: `written` is the trace of
  buffers passed to `device.write`, `inbound` the stream of buffers that
  successive `device.read(20)` calls return.
* Python exceptions become an `Err` inductive; each constructor corresponds to
  one `raise` site (or to a library-raised `ValueError`/`struct.error`).
* Every operation returns `(result-or-error, final state)`, so "no bytes were
  written" is visible as the state coming back unchanged.
-/

namespace MX4

/-- Errors of the core, one constructor per raise site in `mx_master_4.py`
(plus the two library-raised failures of `bytes(args)` and `struct.pack`,
and `readBlocked` for a `device.read` that would block forever, modelled
here as exhaustion of the finite inbound stream). -/
inductive Err where
  | deviceNotOpen
  | hapticPatternOutOfRange
  | tooManyArguments
  | bytesValueOutOfRange
  | packFailed
  | unpackFailed
  | wrongShortReportLength
  | wrongLongReportLength
  | unknownReportId
  | readBlocked
deriving DecidableEq, Repr

/-- Python value found in the `bus_type` field of a `hid.enumerate` entry:
an `int` (an `IntEnum` compares equal to its integer value, so it is covered
by the `int` case for the `==` comparisons in `find`) or a `str`. -/
inductive BusVal where
  | int (n : Int)
  | str (s : String)
deriving DecidableEq, Repr

/-- One entry of the `hid.enumerate(LOGITECH_VID)` result, restricted to the
fields `mx_master_4.py` reads. `path` is kept as a `String` (the source decodes
a `bytes` path to `str`; that decoding is identity on the already-decoded
model). A `none` field models a missing dictionary key (`dict.get` → `None`). -/
structure HidDeviceInfo where
  product_string : Option String
  usage_page : Option Nat
  path : String
  interface_number : Option Int
  bus_type : Option BusVal
deriving DecidableEq, Repr

def LOGITECH_VID : Nat := 0x046D
def USAGE_PAGE_HIDPP : Nat := 0xFF00
def BUS_USB : Int := 0x03
def BUS_BLUETOOTH : Int := 0x05
def PRODUCT_HINTS : List String := ["mx master 4", "mx master"]
def WEBHID_REPORT_ID : Nat := 0x11
def WEBHID_REPORT_LENGTH : Nat := 19
def WEBHID_DEVICE_INDEX : Nat := 0x02

/-- `ReportID.Short = 0x10` (7-byte frame). -/
def ReportID.Short : Nat := 0x10
/-- `ReportID.Long = 0x11` (20-byte frame). -/
def ReportID.Long : Nat := 0x11
/-- `FunctionID.Haptic = 0x0B4E`. -/
def FunctionID.Haptic : Nat := 0x0B4E

/-- Whether the character list `needle` occurs at the start of `hay`
(helper for Python's `in` on strings). -/
def charsStartWith : List Char → List Char → Bool
  | [], _ => true
  | _ :: _, [] => false
  | a :: as, b :: bs => a == b && charsStartWith as bs

/-- Whether `needle` occurs contiguously inside `hay`: Python's
`needle in hay` for strings. -/
def charsContain (needle : List Char) : List Char → Bool
  | [] => needle.isEmpty
  | c :: cs => charsStartWith needle (c :: cs) || charsContain needle cs

/-- `(device.get("product_string") or "").lower()` — the lowercased product
name, as a character list (`Char.toLower` lowercases ASCII, which covers the
hints; Python `str.lower` agrees on ASCII). -/
def productLower (d : HidDeviceInfo) : List Char :=
  (d.product_string.getD "").data.map Char.toLower

/-- `any(hint in product for hint in PRODUCT_HINTS)`. -/
def hintMatch (d : HidDeviceInfo) : Bool :=
  PRODUCT_HINTS.any (fun hint => charsContain hint.data (productLower d))

/-- The relevance filter of `find`: the loop body `continue`s (the interface
yields no candidate) unless `usage_page == USAGE_PAGE_HIDPP` or a product
hint matches. -/
def relevant (d : HidDeviceInfo) : Bool :=
  d.usage_page == some USAGE_PAGE_HIDPP || hintMatch d

/-- Logical device index extraction in `find`: the `interface_number` if it is
an `int` in `[0, 0xFF]`, else `0`. -/
def deviceIdxOf (d : HidDeviceInfo) : Nat :=
  match d.interface_number with
  | some n => if 0 ≤ n ∧ n ≤ 0xFF then n.toNat else 0
  | none => 0

/-- The additive candidate score computed in the loop body of `find`
(Python `==` between a `str`-valued `bus_type` and the `int` bus constants is
`False`, as is `None == 3`; both fall into the no-bonus branch here). -/
def scoreOf (prefer_bluetooth : Bool) (d : HidDeviceInfo) : Nat :=
  (if d.usage_page == some USAGE_PAGE_HIDPP then 2 else 0)
  + (if hintMatch d then 1 else 0)
  + (match d.bus_type with
     | some (.int n) =>
       if n = BUS_BLUETOOTH then (if prefer_bluetooth then 2 else 1)
       else if n = BUS_USB then (if !prefer_bluetooth then 2 else 1)
       else 0
     | _ => 0)

/-- One element of the `candidates` list of `find`: the tuple
`(score, path, device_idx, device)`. -/
structure Cand where
  score : Nat
  path : String
  device_idx : Nat
  dev : HidDeviceInfo
deriving DecidableEq, Repr

/-- The candidate tuple appended for a relevant interface. -/
def mkCand (prefer_bluetooth : Bool) (d : HidDeviceInfo) : Cand :=
  { score := scoreOf prefer_bluetooth d
    path := d.path
    device_idx := deviceIdxOf d
    dev := d }

/-- The `candidates` list built by the enumeration loop of `find`:
relevant interfaces, in enumeration order. -/
def candidatesList (devs : List HidDeviceInfo) (prefer_bluetooth : Bool) :
    List Cand :=
  devs.filterMap (fun d =>
    if relevant d then some (mkCand prefer_bluetooth d) else none)

/-- Stable insertion (descending by score) used to model
`candidates.sort(key=lambda entry: entry[0], reverse=True)`. `sortCands`
inserts from the right, so the element being inserted precedes, in
enumeration order, everything already in the accumulator; stability therefore
requires placing it before the first element whose score is `≤` its own. -/
def insertCand (c : Cand) : List Cand → List Cand
  | [] => [c]
  | d :: ds => if d.score ≤ c.score then c :: d :: ds else d :: insertCand c ds

/-- Stable sort by score, descending (extensionally Python's stable
`list.sort(key=score, reverse=True)`): a permutation ordered by descending
score in which candidates of equal score keep their enumeration order. -/
def sortCands : List Cand → List Cand
  | [] => []
  | c :: cs => insertCand c (sortCands cs)

/-- `MXMaster4.find(prefer_bluetooth)`: `None` when no candidate survives the
filter, else `candidates[0]` after the stable descending sort. The selected
candidate carries the `path`, `device_idx` and device record from which the
source builds the `MXMaster4` instance. -/
def find (devs : List HidDeviceInfo) (prefer_bluetooth : Bool) : Option Cand :=
  match sortCands (candidatesList devs prefer_bluetooth) with
  | [] => none
  | c :: _ => some c

/-- `MXMaster4._is_bluetooth`: an object with a `.name` attribute (an enum) is
classified by a substring check on the lowercased name; the `int` case of
`BusVal` covers plain ints and `IntEnum`s by value (for an `IntEnum` bus the
name check and the value check agree on "is it the Bluetooth constant"),
strings by substring, anything else is `False`. -/
def isBluetoothBus : Option BusVal → Bool
  | some (.int n) => n == BUS_BLUETOOTH
  | some (.str s) => charsContain "bluetooth".data (s.data.map Char.toLower)
  | none => false

/-- An `MXMaster4` object together with the I/O state of its HID handle:
`deviceOpen` is whether `self.device` is set, `written` the buffers passed to
`device.write` so far, `inbound` the buffers that future `device.read(20)`
calls will return. -/
structure Session where
  path : String
  device_idx : Nat
  is_bluetooth : Bool
  deviceOpen : Bool
  written : List (List Nat)
  inbound : List (List Nat)
deriving DecidableEq, Repr

/-- `MXMaster4.write`: raise `Device not open` when the handle is absent,
else hand the buffer to the OS. -/
def Session.write (s : Session) (data : List Nat) : Except Err Unit × Session :=
  if s.deviceOpen then (.ok (), { s with written := s.written ++ [data] })
  else (.error .deviceNotOpen, s)

/-- Byte `k` of an inbound buffer (only consulted behind a length guard,
mirroring `struct.unpack(b">BBH", response[:4])`). -/
def frameByte (r : List Nat) (k : Nat) : Nat := r.getD k 0

/-- Parsed `r_report_id` of an inbound buffer. -/
def frameRid (r : List Nat) : Nat := frameByte r 0
/-- Parsed `r_device_idx` of an inbound buffer. -/
def frameIdx (r : List Nat) : Nat := frameByte r 1
/-- Parsed big-endian `r_f_idx` of an inbound buffer. -/
def frameFid (r : List Nat) : Nat := frameByte r 2 * 256 + frameByte r 3

/-- `MXMaster4.read` as a function of the expected device index and the
inbound stream: parse the 4-byte header, recurse past frames for other
logical indices, then validate the report id and length. Returns the result
(or error) together with the unconsumed remainder of the stream. An exhausted
stream stands for a `device.read` that blocks forever (`readBlocked`); a
buffer shorter than the 4-byte header makes `unpack` raise (`unpackFailed`). -/
def readLoop (expected : Nat) :
    List (List Nat) → Except Err (Nat × List Nat) × List (List Nat)
  | [] => (.error .readBlocked, [])
  | r :: rest =>
    if r.length < 4 then (.error .unpackFailed, rest)
    else if frameIdx r ≠ expected then readLoop expected rest
    else if frameRid r = ReportID.Short then
      if (r.drop 4).length ≠ 7 - 4 then (.error .wrongShortReportLength, rest)
      else (.ok (frameFid r, r.drop 4), rest)
    else if frameRid r = ReportID.Long then
      if (r.drop 4).length ≠ 20 - 4 then (.error .wrongLongReportLength, rest)
      else (.ok (frameFid r, r.drop 4), rest)
    else (.error .unknownReportId, rest)

/-- `MXMaster4.read` on a session: run the read loop against the session's
inbound stream. -/
def Session.read (s : Session) : Except Err (Nat × List Nat) × Session :=
  match readLoop s.device_idx s.inbound with
  | (r, rest) => (r, { s with inbound := rest })

/-- `struct.pack`'s `3s` field: the byte string truncated or null-padded to
exactly 3 bytes. -/
def pack3s (data : List Nat) : List Nat :=
  data.take 3 ++ List.replicate (3 - data.length) 0

/-- `MXMaster4.hidpp(feature_idx, *args)`: reject more than 16 arguments,
build the payload with `bytes(args)` (which raises on a value outside
`[0, 255]`), zero-pad it on the right to at least 3 bytes, pick
`Short`/`Long` by the padded length, encode with
`pack(b">BBH3s", report_id, device_idx, feature_idx, data)` (`B` and `H`
raise when their value exceeds `0xFF` / `0xFFFF`; the `H` field is big-endian,
hence the `/ 256`, `% 256` bytes; the `3s` field truncates `data` to 3 bytes),
write the packet and read the response. -/
def Session.hidpp (s : Session) (feature_idx : Nat) (args : List Int) :
    Except Err (Nat × List Nat) × Session :=
  if 16 < args.length then (.error .tooManyArguments, s)
  else if args.all (fun a => decide (0 ≤ a) && decide (a ≤ 255)) then
    let data0 : List Nat := args.map Int.toNat
    let data : List Nat :=
      if data0.length < 3 then data0 ++ List.replicate (3 - data0.length) 0
      else data0
    let report_id : Nat :=
      if data.length = 3 then ReportID.Short else ReportID.Long
    if 0xFF < s.device_idx ∨ 0xFFFF < feature_idx then (.error .packFailed, s)
    else
      let packet : List Nat :=
        [report_id, s.device_idx, feature_idx / 256, feature_idx % 256]
          ++ pack3s data
      match s.write packet with
      | (.error e, s1) => (.error e, s1)
      | (.ok _, s1) => s1.read
  else (.error .bytesValueOutOfRange, s)

/-- `MXMaster4._webhid_haptic(pattern_id)`: range-check the pattern, build the
19-byte zeroed payload, set bytes 0–3 (`WEBHID_DEVICE_INDEX`, the big-endian
haptic function id, the pattern), prepend the report id and write. Nothing is
read. -/
def Session.webhidHaptic (s : Session) (pattern_id : Int) :
    Except Err Unit × Session :=
  if 0 ≤ pattern_id ∧ pattern_id ≤ 0xFF then
    let payload : List Nat :=
      ((((List.replicate WEBHID_REPORT_LENGTH 0).set 0 WEBHID_DEVICE_INDEX).set
          1 ((FunctionID.Haptic >>> 8) &&& 0xFF)).set
          2 (FunctionID.Haptic &&& 0xFF)).set 3 pattern_id.toNat
    s.write (WEBHID_REPORT_ID :: payload)
  else (.error .hapticPatternOutOfRange, s)

/-- `MXMaster4.haptic(pattern_id)`: dispatch on the transport. The WebHID
branch returns Python `None` (here `Option.none`), the wired branch the
decoded `(function id, payload)` response. -/
def Session.haptic (s : Session) (pattern_id : Int) :
    Except Err (Option (Nat × List Nat)) × Session :=
  if s.is_bluetooth then
    match s.webhidHaptic pattern_id with
    | (.ok _, s1) => (.ok none, s1)
    | (.error e, s1) => (.error e, s1)
  else
    match s.hidpp FunctionID.Haptic [pattern_id] with
    | (.ok r, s1) => (.ok (some r), s1)
    | (.error e, s1) => (.error e, s1)

/-- The maximum score occurring in a candidate list (0 when empty). -/
def maxScore (cs : List Cand) : Nat :=
  cs.foldr (fun c m => max c.score m) 0

/-- Modelled from the spec's words (§4.1, §8): "first-enumerated candidate
wins among equal top scores" — the earliest candidate whose score attains the
maximum score of the list. Used to compare `find`'s sort-then-head against the
spec's stable tie-break description. -/
def firstMaxCand (cs : List Cand) : Option Cand :=
  cs.find? (fun c => decide (maxScore cs ≤ c.score))

end MX4

namespace MX4

/-! Helper lemmas about the candidate sort. -/

theorem maxScore_cons (c : Cand) (cs : List Cand) :
    maxScore (c :: cs) = max c.score (maxScore cs) := rfl

theorem score_le_maxScore {c : Cand} {cs : List Cand} (h : c ∈ cs) :
    c.score ≤ maxScore cs := by
  induction cs with
  | nil => cases h
  | cons d ds ih =>
    rcases List.mem_cons.mp h with h | h
    · subst h; exact Nat.le_max_left _ _
    · exact le_trans (ih h) (Nat.le_max_right _ _)

theorem insertCand_ne_nil (c : Cand) (l : List Cand) : insertCand c l ≠ [] := by
  cases l with
  | nil => simp [insertCand]
  | cons d ds => simp only [insertCand]; split <;> simp

theorem sortCands_eq_nil_iff (cs : List Cand) : sortCands cs = [] ↔ cs = [] := by
  cases cs with
  | nil => simp [sortCands]
  | cons c cs => simp only [sortCands]; exact ⟨fun h => absurd h (insertCand_ne_nil _ _), fun h => by cases h⟩

theorem sortCands_head_spec (cs : List Cand) :
    ∀ c t, sortCands cs = c :: t →
      c.score = maxScore cs ∧ firstMaxCand cs = some c := by
  induction cs with
  | nil => intro c t h; simp [sortCands] at h
  | cons a cs ih =>
    intro c t h
    simp only [sortCands] at h
    cases hs : sortCands cs with
    | nil =>
      have hcs : cs = [] := (sortCands_eq_nil_iff cs).mp hs
      subst hcs
      simp only [sortCands, insertCand] at h
      injection h with h1 h2
      subst h1
      refine ⟨by simp [maxScore], ?_⟩
      simp [firstMaxCand, maxScore]
    | cons h0 t0 =>
      obtain ⟨hsc, hfm⟩ := ih h0 t0 hs
      rw [hs] at h
      simp only [insertCand] at h
      by_cases hle : h0.score ≤ a.score
      · rw [if_pos hle] at h
        injection h with h1 h2
        subst h1
        have hmax : maxScore (a :: cs) = a.score := by
          rw [maxScore_cons, ← hsc]
          exact Nat.max_eq_left hle
        refine ⟨hmax.symm, ?_⟩
        unfold firstMaxCand
        rw [List.find?_cons_of_pos]
        simp [hmax]
      · rw [if_neg hle] at h
        injection h with h1 h2
        subst h1
        have hlt : a.score < h0.score := Nat.lt_of_not_le hle
        have hmax : maxScore (a :: cs) = maxScore cs := by
          rw [maxScore_cons, ← hsc]
          exact Nat.max_eq_right (le_of_lt hlt)
        refine ⟨by rw [hmax, hsc], ?_⟩
        unfold firstMaxCand
        rw [List.find?_cons_of_neg]
        · rw [hmax]; exact hfm
        · simp only [decide_eq_true_eq, hmax, ← hsc]
          omega

theorem find_eq_firstMaxCand (devs : List HidDeviceInfo) (p : Bool) :
    find devs p = firstMaxCand (candidatesList devs p) := by
  cases hs : sortCands (candidatesList devs p) with
  | nil =>
    have hnil : candidatesList devs p = [] := (sortCands_eq_nil_iff _).mp hs
    unfold find firstMaxCand
    rw [hs, hnil]
    simp
  | cons c t =>
    have := sortCands_head_spec (candidatesList devs p) c t hs
    simp [find, hs, this.2]

theorem mem_candidatesList {devs : List HidDeviceInfo} {p : Bool}
    {d : HidDeviceInfo} (hmem : d ∈ devs) (hrel : relevant d = true) :
    mkCand p d ∈ candidatesList devs p := by
  unfold candidatesList
  exact List.mem_filterMap.mpr ⟨d, hmem, by rw [if_pos hrel]⟩

theorem candidatesList_sound {devs : List HidDeviceInfo} {p : Bool}
    {c : Cand} (hc : c ∈ candidatesList devs p) :
    c.dev ∈ devs ∧ relevant c.dev = true ∧ c = mkCand p c.dev := by
  unfold candidatesList at hc
  obtain ⟨d, hd, hfd⟩ := List.mem_filterMap.mp hc
  by_cases hrel : relevant d = true
  · rw [if_pos hrel] at hfd
    obtain rfl := Option.some.inj hfd
    exact ⟨hd, hrel, rfl⟩
  · rw [if_neg hrel] at hfd
    cases hfd

end MX4

namespace MX4

theorem find_eq_none_iff (devs : List HidDeviceInfo) (p : Bool) :
    find devs p = none ↔ candidatesList devs p = [] := by
  unfold find
  cases hs : sortCands (candidatesList devs p) with
  | nil => simp [(sortCands_eq_nil_iff _).mp hs]
  | cons c t =>
    constructor
    · intro h; simp at h
    · intro h; rw [h] at hs; simp [sortCands] at hs

theorem candidatesList_eq_nil_iff (devs : List HidDeviceInfo) (p : Bool) :
    candidatesList devs p = [] ↔ ∀ d ∈ devs, relevant d = false := by
  unfold candidatesList
  rw [List.filterMap_eq_nil_iff]
  constructor
  · intro h d hd
    have hdd := h d hd
    by_cases hrel : relevant d = true
    · rw [if_pos hrel] at hdd; cases hdd
    · simpa using hrel
  · intro h d hd
    rw [if_neg]
    simp [h d hd]

/-- Sample enumeration entries used by the concrete witnesses below. -/
def btSample : HidDeviceInfo :=
  { product_string := some "MX Master 4"
    usage_page := some 0xFF00
    path := "/dev/hidraw1"
    interface_number := some 1
    bus_type := some (.int 5) }

/-- A USB interface whose usage page is not the proprietary one. -/
def usbSample : HidDeviceInfo :=
  { product_string := some "MX Master 4"
    usage_page := some 1
    path := "/dev/hidraw0"
    interface_number := some 2
    bus_type := some (.int 3) }

/-- An interface matching neither filter criterion. -/
def otherSample : HidDeviceInfo :=
  { product_string := some "Gaming Keyboard"
    usage_page := some 1
    path := "/dev/hidraw2"
    interface_number := none
    bus_type := some (.int 3) }

/-- C5: with `preferBluetooth = true`, a Bluetooth-bus candidate with the
proprietary usage page and a known-product name scores 5, strictly above any
USB-bus device without the usage-page match (score at most 2), and therefore
`find` never selects such a USB device over it: whenever such a Bluetooth
device is enumerated, the selected candidate scores at least 5 and cannot be
a USB-bus, non-matching-usage-page one. -/
theorem find_prefers_bluetooth_match (devs : List HidDeviceInfo)
    (d : HidDeviceInfo) (hmem : d ∈ devs)
    (hbus : d.bus_type = some (.int BUS_BLUETOOTH))
    (hup : d.usage_page = some USAGE_PAGE_HIDPP) (hname : hintMatch d = true) :
    (∀ d2 : HidDeviceInfo, d2.bus_type = some (.int BUS_USB) →
        d2.usage_page ≠ some USAGE_PAGE_HIDPP →
        scoreOf true d2 < scoreOf true d)
    ∧ ∃ c, find devs true = some c ∧ 5 ≤ c.score ∧
        (c.dev.bus_type = some (.int BUS_USB) →
          c.dev.usage_page = some USAGE_PAGE_HIDPP) := by
  have hscore : scoreOf true d = 5 := by
    simp [scoreOf, hup, hname, hbus, BUS_BLUETOOTH, BUS_USB]
  have husb : ∀ d2 : HidDeviceInfo, d2.bus_type = some (.int BUS_USB) →
      d2.usage_page ≠ some USAGE_PAGE_HIDPP → scoreOf true d2 < 5 := by
    intro d2 h2 hneq
    have hbeq : (d2.usage_page == some USAGE_PAGE_HIDPP) = false := by
      simpa using hneq
    simp only [scoreOf, h2, hbeq, if_false, BUS_BLUETOOTH, BUS_USB]
    norm_num
    split <;> omega
  refine ⟨fun d2 h2 hneq => hscore ▸ husb d2 h2 hneq, ?_⟩
  have hrel : relevant d = true := by simp [relevant, hname]
  have hcand : mkCand true d ∈ candidatesList devs true :=
    mem_candidatesList hmem hrel
  cases hs : sortCands (candidatesList devs true) with
  | nil =>
    rw [(sortCands_eq_nil_iff _).mp hs] at hcand
    cases hcand
  | cons c t =>
    obtain ⟨hcs, hfm⟩ := sortCands_head_spec _ c t hs
    have hfind : find devs true = some c := by unfold find; rw [hs]
    have hcmem : c ∈ candidatesList devs true := by
      unfold firstMaxCand at hfm
      exact List.mem_of_find?_eq_some hfm
    obtain ⟨hcdev, hcrel, hceq⟩ := candidatesList_sound hcmem
    have h5 : 5 ≤ c.score := by
      rw [hcs]
      calc 5 = (mkCand true d).score := by simp [mkCand, hscore]
        _ ≤ maxScore (candidatesList devs true) := score_le_maxScore hcand
    refine ⟨c, hfind, h5, ?_⟩
    intro hcbus
    by_contra hcup
    have hcscore : c.score = scoreOf true c.dev := by
      conv_lhs => rw [hceq]
      rfl
    have := husb c.dev hcbus hcup
    omega

/-- Witness for C5 at a concrete enumeration: with a non-matching USB entry
first and the Bluetooth entry second, the selected candidate scores at least
5. -/
theorem find_prefers_bluetooth_match_witness :
    5 ≤ ((find [usbSample, btSample] true).map Cand.score).getD 0 := by
  obtain ⟨c, hc, h5, -⟩ :=
    (find_prefers_bluetooth_match [usbSample, btSample] btSample
      (by simp) rfl rfl (by decide)).2
  rw [hc]
  simpa using h5

/-- C6: `find` produces a candidate for an enumerated interface exactly when
the relevance filter passes (usage page `0xFF00`, or lowercased product name
containing a known hint); filtered-out interfaces yield no candidate at all,
and `find` returns `None` exactly when every enumerated interface fails the
filter. -/
theorem find_candidate_iff_relevant (devs : List HidDeviceInfo) (p : Bool) :
    (find devs p = none ↔ ∀ d ∈ devs, relevant d = false)
    ∧ (∀ d ∈ devs, relevant d = true → mkCand p d ∈ candidatesList devs p)
    ∧ (∀ c ∈ candidatesList devs p, c.dev ∈ devs ∧ relevant c.dev = true) :=
  ⟨(find_eq_none_iff devs p).trans (candidatesList_eq_nil_iff devs p),
   fun _ hd hrel => mem_candidatesList hd hrel,
   fun _ hc => ⟨(candidatesList_sound hc).1, (candidatesList_sound hc).2.1⟩⟩

/-- Witness for C6 at concrete inputs: an enumeration containing only a
non-matching interface yields `None`. -/
theorem find_candidate_iff_relevant_witness :
    find [otherSample] true = none :=
  (find_candidate_iff_relevant [otherSample] true).1.mpr (by decide)

/-- C7: `find` is a deterministic function of the enumeration snapshot and
the preference flag, and it returns exactly the earliest-enumerated candidate
among those sharing the maximum score (the stable descending sort preserves
enumeration order for equal scores). -/
theorem find_deterministic_and_stable (devs : List HidDeviceInfo) (p : Bool) :
    find devs p = find devs p
    ∧ find devs p = firstMaxCand (candidatesList devs p) :=
  ⟨rfl, find_eq_firstMaxCand devs p⟩

end MX4

namespace MX4

/-- C3: the read loop discards every inbound frame whose parsed device index
differs from the session's expected index `i` and returns the function id and
payload of the first frame whose device index equals `i` (provided that frame
is well-formed, which the validation of C4 then checks). -/
theorem read_filters_other_indices (i : Nat) (pre : List (List Nat))
    (f : List Nat) (rest : List (List Nat))
    (hpre : ∀ g ∈ pre, 4 ≤ g.length ∧ frameIdx g ≠ i)
    (hf4 : 4 ≤ f.length) (hfi : frameIdx f = i)
    (hvalid : (frameRid f = ReportID.Short ∧ f.length = 7)
      ∨ (frameRid f = ReportID.Long ∧ f.length = 20)) :
    readLoop i (pre ++ f :: rest) = (.ok (frameFid f, f.drop 4), rest) := by
  induction pre with
  | nil =>
    simp only [List.nil_append]
    unfold readLoop
    rw [if_neg (by omega), if_neg (by simp [hfi])]
    rcases hvalid with ⟨hr, hl⟩ | ⟨hr, hl⟩
    · rw [if_pos hr, if_neg (by simp [List.length_drop, hl])]
    · rw [if_neg (by simp [hr, ReportID.Long, ReportID.Short]),
        if_pos hr, if_neg (by simp [List.length_drop, hl])]
  | cons g pre ih =>
    obtain ⟨hg4, hgi⟩ := hpre g (List.mem_cons_self g pre)
    have hpre1 : ∀ g1 ∈ pre, 4 ≤ g1.length ∧ frameIdx g1 ≠ i :=
      fun g1 hg1 => hpre g1 (List.mem_cons_of_mem _ hg1)
    simp only [List.cons_append]
    unfold readLoop
    rw [if_neg (by omega), if_pos hgi]
    exact ih hpre1

/-- A frame carrying device index `0x02`, to be discarded by a session whose
logical index is `0x01`. -/
def frameOther : List Nat := [0x11, 0x02, 0x0B, 0x4E] ++ List.replicate 16 0

/-- A valid 20-byte Long response frame for device index `0x01`. -/
def frameMine : List Nat := [0x11, 0x01, 0x0B, 0x4E, 0x07] ++ List.replicate 15 0

/-- Witness for C3 at the spec's concrete stream: against
`[frame(idx=0x02), frame(idx=0x01, valid)]` a session expecting `0x01`
returns the second frame's function id and payload. -/
theorem read_filters_other_indices_witness :
    readLoop 0x01 [frameOther, frameMine]
      = (.ok (0x0B4E, 0x07 :: List.replicate 15 0), []) := by
  have h := read_filters_other_indices 0x01 [frameOther] frameMine []
    (by decide) (by decide) (by decide) (by decide)
  exact h.trans rfl

/-- C4: once a frame with the matching device index arrives, the read loop
validates it: report id `0x10` (Short) demands a total length of exactly 7
bytes and report id `0x11` (Long) exactly 20 bytes, failing with the
respective wrong-report-length error otherwise; any other report id fails
with the unknown-report-id error; on success the echoed function id and the
payload after the 4-byte header are returned. -/
theorem read_validates_matched_frame (i : Nat) (r : List Nat)
    (rest : List (List Nat)) (h4 : 4 ≤ r.length) (hidx : frameIdx r = i) :
    (frameRid r = ReportID.Short →
      (r.length = 7 →
        readLoop i (r :: rest) = (.ok (frameFid r, r.drop 4), rest))
      ∧ (r.length ≠ 7 →
        readLoop i (r :: rest) = (.error .wrongShortReportLength, rest)))
    ∧ (frameRid r = ReportID.Long →
      (r.length = 20 →
        readLoop i (r :: rest) = (.ok (frameFid r, r.drop 4), rest))
      ∧ (r.length ≠ 20 →
        readLoop i (r :: rest) = (.error .wrongLongReportLength, rest)))
    ∧ (frameRid r ≠ ReportID.Short → frameRid r ≠ ReportID.Long →
      readLoop i (r :: rest) = (.error .unknownReportId, rest)) := by
  have hstep : readLoop i (r :: rest)
      = (if frameRid r = ReportID.Short then
          if (r.drop 4).length ≠ 7 - 4 then (.error .wrongShortReportLength, rest)
          else (.ok (frameFid r, r.drop 4), rest)
        else if frameRid r = ReportID.Long then
          if (r.drop 4).length ≠ 20 - 4 then (.error .wrongLongReportLength, rest)
          else (.ok (frameFid r, r.drop 4), rest)
        else (.error .unknownReportId, rest)) := by
    unfold readLoop
    rw [if_neg (by omega), if_neg (by simp [hidx])]
  refine ⟨fun hr => ⟨fun hl => ?_, fun hl => ?_⟩,
    fun hr => ⟨fun hl => ?_, fun hl => ?_⟩, fun hr1 hr2 => ?_⟩
  · rw [hstep, if_pos hr, if_neg (by simp [List.length_drop, hl])]
  · rw [hstep, if_pos hr, if_pos (by simp [List.length_drop]; omega)]
  · rw [hstep, if_neg (by simp [hr, ReportID.Long, ReportID.Short]),
      if_pos hr, if_neg (by simp [List.length_drop, hl])]
  · rw [hstep, if_neg (by simp [hr, ReportID.Long, ReportID.Short]),
      if_pos hr, if_pos (by simp [List.length_drop]; omega)]
  · rw [hstep, if_neg hr1, if_neg hr2]

/-- Witness for C4 at concrete frames: a matching 7-byte Short frame is
accepted; a matching Short-tagged frame of total length 20 is rejected with
the wrong-short-report-length error; report id `0x12` is rejected as
unknown. -/
theorem read_validates_matched_frame_witness :
    readLoop 0x01 [[0x10, 0x01, 0x00, 0x01, 0x09, 0x08, 0x07]]
      = (.ok (1, [0x09, 0x08, 0x07]), [])
    ∧ readLoop 0x01 [[0x10, 0x01, 0x00, 0x01] ++ List.replicate 16 0]
      = (.error .wrongShortReportLength, [])
    ∧ readLoop 0x01 [[0x12, 0x01, 0x00, 0x01, 0x09, 0x08, 0x07]]
      = (.error .unknownReportId, []) := by
  refine ⟨?_, ?_, ?_⟩
  · have h := ((read_validates_matched_frame 0x01
      [0x10, 0x01, 0x00, 0x01, 0x09, 0x08, 0x07] [] (by decide) (by decide)).1
      (by decide)).1 (by decide)
    exact h.trans rfl
  · exact ((read_validates_matched_frame 0x01
      ([0x10, 0x01, 0x00, 0x01] ++ List.replicate 16 0) [] (by decide)
      (by decide)).1 (by decide)).2 (by decide)
  · exact (read_validates_matched_frame 0x01
      [0x12, 0x01, 0x00, 0x01, 0x09, 0x08, 0x07] [] (by decide)
      (by decide)).2.2 (by decide) (by decide)

end MX4

namespace MX4

/-- An open wired session with logical device index 1 and empty I/O traces. -/
def wiredOpen : Session :=
  { path := "/dev/hidraw1"
    device_idx := 1
    is_bluetooth := false
    deviceOpen := true
    written := []
    inbound := [] }

/-- An open Bluetooth session with logical device index 1. -/
def btOpen : Session := { wiredOpen with is_bluetooth := true }

/-- The wired session before `__enter__`: no handle. -/
def wiredClosed : Session := { wiredOpen with deviceOpen := false }

theorem write_open (s : Session) (data : List Nat)
    (hopen : s.deviceOpen = true) :
    s.write data = (.ok (), { s with written := s.written ++ [data] }) := by
  unfold Session.write
  rw [if_pos hopen]

theorem read_written (s : Session) : s.read.2.written = s.written := by
  unfold Session.read
  rcases h : readLoop s.device_idx s.inbound with ⟨r, rest⟩
  simp

/-- C1, code-bug evidence: with 4 arguments the code picks report id `0x11`
(Long) but `pack(b">BBH3s", ...)` truncates the payload to 3 bytes, so the
written frame is 7 bytes long — not the 20-byte Long frame that the claim
(and the source's own `ReportID.Long  # 20 bytes` comment) describes. The
other two parts of the claim do hold: with more than 16 arguments
`TooManyArguments` is raised with the state unchanged, so nothing is
written, and with up to 3 arguments a 7-byte `0x10` frame is written. -/
theorem hidpp_long_frame_truncated :
    (wiredOpen.hidpp FunctionID.Haptic [1, 2, 3, 4]).2.written
      = [[0x11, 0x01, 0x0B, 0x4E, 0x01, 0x02, 0x03]]
    ∧ ((wiredOpen.hidpp FunctionID.Haptic [1, 2, 3, 4]).2.written.getD 0 []).length
      = 7
    ∧ frameRid ((wiredOpen.hidpp FunctionID.Haptic [1, 2, 3, 4]).2.written.getD 0 [])
      = ReportID.Long
    ∧ wiredOpen.hidpp FunctionID.Haptic (List.replicate 17 0)
      = (.error .tooManyArguments, wiredOpen)
    ∧ (wiredOpen.hidpp FunctionID.Haptic [1, 2, 3]).2.written
      = [[0x10, 0x01, 0x0B, 0x4E, 0x01, 0x02, 0x03]] :=
  ⟨rfl, rfl, rfl, rfl, rfl⟩

/-- C2: on a Bluetooth session `haptic 7` writes exactly the 20-byte buffer
`11 02 0B 4E 07` followed by 15 zero bytes, returns Python `None`, and leaves
the inbound stream untouched (no response is read). -/
theorem webhid_haptic_frame (s : Session) (hbt : s.is_bluetooth = true)
    (hopen : s.deviceOpen = true) :
    s.haptic 7 = (.ok none,
      { s with written := s.written
          ++ [[0x11, 0x02, 0x0B, 0x4E, 0x07] ++ List.replicate 15 0] }) := by
  have hw : s.webhidHaptic 7 = (.ok (),
      { s with written := s.written
          ++ [[0x11, 0x02, 0x0B, 0x4E, 0x07] ++ List.replicate 15 0] }) := by
    unfold Session.webhidHaptic
    rw [if_pos (by norm_num)]
    have hpayload : (WEBHID_REPORT_ID : Nat) ::
        ((((List.replicate WEBHID_REPORT_LENGTH 0).set 0 WEBHID_DEVICE_INDEX).set
          1 ((FunctionID.Haptic >>> 8) &&& 0xFF)).set
          2 (FunctionID.Haptic &&& 0xFF)).set 3 (Int.toNat 7)
        = [0x11, 0x02, 0x0B, 0x4E, 0x07] ++ List.replicate 15 0 := by decide
    unfold Session.write
    rw [if_pos hopen, hpayload]
  unfold Session.haptic
  rw [if_pos hbt, hw]

/-- Witness for C2 on a concrete Bluetooth session. -/
theorem webhid_haptic_frame_witness :
    (btOpen.haptic 7).2.written
      = [[0x11, 0x02, 0x0B, 0x4E, 0x07] ++ List.replicate 15 0] := by
  rw [webhid_haptic_frame btOpen rfl rfl]
  rfl

/-- C8: a wired argument list shorter than 3 bytes is zero-padded on the
right to length 3, and the written frame is the Short frame whose payload is
the arguments followed by the padding. -/
theorem hidpp_pads_short_args (s : Session) (fid : Nat) (args : List Int)
    (hopen : s.deviceOpen = true) (hlen : args.length < 3)
    (hvals : ∀ a ∈ args, 0 ≤ a ∧ a ≤ 255)
    (hidx : s.device_idx ≤ 0xFF) (hfid : fid ≤ 0xFFFF) :
    (s.hidpp fid args).2.written
      = s.written ++ [[ReportID.Short, s.device_idx, fid / 256, fid % 256]
          ++ args.map Int.toNat ++ List.replicate (3 - args.length) 0] := by
  have h16 : ¬ (16 < args.length) := by omega
  have hall : (args.all fun a => decide (0 ≤ a) && decide (a ≤ 255)) = true := by
    simp only [List.all_eq_true, Bool.and_eq_true, decide_eq_true_eq]
    exact fun a ha => ⟨(hvals a ha).1, (hvals a ha).2⟩
  have hmaplen : (args.map Int.toNat).length < 3 := by
    simpa using hlen
  have hdlen :
      (args.map Int.toNat ++ List.replicate (3 - (args.map Int.toNat).length) 0).length
        = 3 := by
    simp only [List.length_append, List.length_map, List.length_replicate]
    omega
  have hpack : ¬ (0xFF < s.device_idx ∨ 0xFFFF < fid) := by omega
  have hps : pack3s (args.map Int.toNat
        ++ List.replicate (3 - (args.map Int.toNat).length) 0)
      = args.map Int.toNat
        ++ List.replicate (3 - (args.map Int.toNat).length) 0 := by
    unfold pack3s
    rw [hdlen, List.take_of_length_le hdlen.le]
    simp
  unfold Session.hidpp
  rw [if_neg h16, if_pos hall]
  simp only [hmaplen, if_true, hdlen, if_pos, hpack, if_neg, not_false_iff]
  rw [write_open s _ hopen]
  simp only []
  rw [read_written]
  simp [hps, List.append_assoc]
  simpa using hps

/-- Witness for C8 at the spec's concrete input: `args=[0x05]` yields a Short
frame whose payload bytes are `05 00 00`. -/
theorem hidpp_pads_short_args_witness :
    (wiredOpen.hidpp FunctionID.Haptic [0x05]).2.written
      = [[0x10, 0x01, 0x0B, 0x4E, 0x05, 0x00, 0x00]] := by
  have h := hidpp_pads_short_args wiredOpen FunctionID.Haptic [0x05] rfl
    (by norm_num) (by decide) (by decide) (by decide)
  exact h.trans (by decide)

/-- C9: `haptic` (on either transport) and `write` on a session whose handle
was never opened fail with the `Device not open` error before any I/O, the
session state coming back unchanged (for the wired path the byte-level
preconditions of `bytes`/`struct.pack` are assumed, as guaranteed for a
pattern id in `[0, 255]` and a `find`-produced index). -/
theorem closed_session_errors (s : Session) (p : Int)
    (hclosed : s.deviceOpen = false) (hp : 0 ≤ p ∧ p ≤ 255)
    (hidx : s.device_idx ≤ 0xFF) :
    s.haptic p = (.error .deviceNotOpen, s)
    ∧ ∀ data : List Nat, s.write data = (.error .deviceNotOpen, s) := by
  have hw : ∀ data : List Nat, s.write data = (.error .deviceNotOpen, s) := by
    intro data
    unfold Session.write
    rw [if_neg (by simp [hclosed])]
  refine ⟨?_, hw⟩
  unfold Session.haptic
  by_cases hbt : s.is_bluetooth = true
  · rw [if_pos hbt]
    have hwh : s.webhidHaptic p = (.error .deviceNotOpen, s) := by
      unfold Session.webhidHaptic
      rw [if_pos hp, hw _]
    rw [hwh]
  · rw [if_neg hbt]
    have hh : s.hidpp FunctionID.Haptic [p] = (.error .deviceNotOpen, s) := by
      unfold Session.hidpp
      rw [if_neg (by norm_num)]
      rw [if_pos (by simp only [List.all_cons, List.all_nil, Bool.and_true,
        Bool.and_eq_true, decide_eq_true_eq]; exact ⟨hp.1, hp.2⟩)]
      rw [if_neg (by simp only [FunctionID.Haptic]; omega)]
      simp only [hw]
    rw [hh]

/-- Witness for C9 on a concrete unopened session. -/
theorem closed_session_errors_witness :
    wiredClosed.haptic 3 = (.error .deviceNotOpen, wiredClosed)
    ∧ wiredClosed.write [0x10, 0x01] = (.error .deviceNotOpen, wiredClosed) := by
  have h := closed_session_errors wiredClosed 3 rfl (by norm_num) (by decide)
  exact ⟨h.1, h.2 [0x10, 0x01]⟩

/-- C10: whenever some argument value lies outside `[0, 255]`, `hidpp` fails
(with `TooManyArguments` if the length precondition also fails, else with the
`bytes(args)` range error) before any write: the returned state is the
unchanged input session. -/
theorem hidpp_rejects_bad_byte (s : Session) (fid : Nat) (args : List Int)
    (hbad : ∃ a ∈ args, a < 0 ∨ 255 < a) :
    ∃ e, s.hidpp fid args = (.error e, s) := by
  unfold Session.hidpp
  by_cases h16 : 16 < args.length
  · exact ⟨.tooManyArguments, by rw [if_pos h16]⟩
  · refine ⟨.bytesValueOutOfRange, ?_⟩
    rw [if_neg h16, if_neg ?hnotall]
    case hnotall =>
      intro hC
      obtain ⟨a, ha, hout⟩ := hbad
      have := List.all_eq_true.mp hC a ha
      simp only [Bool.and_eq_true, decide_eq_true_eq] at this
      omega

/-- Witness for C10 at a concrete input: `hidpp` with argument `300` leaves
the trace of written buffers empty. -/
theorem hidpp_rejects_bad_byte_witness :
    (wiredOpen.hidpp FunctionID.Haptic [300]).2.written = [] := by
  obtain ⟨e, he⟩ := hidpp_rejects_bad_byte wiredOpen FunctionID.Haptic [300]
    ⟨300, by simp, by norm_num⟩
  rw [he]
  rfl

end MX4
